import Mathlib

/-!
Shallow embedding of the rustfetch program (src/main.rs) and verification of
the frozen claims about its specification.

The Rust program is a one-shot system-information tool.  Every probe reads
the ambient world (environment variables, pseudo-files, subprocess output)
and produces a display string; the world is modelled below as an explicit
`HostEnv` record that each probe takes as an argument.  String manipulation
primitives of the Rust standard library (trim, split, lines, starts_with,
contains, parse) are re-implemented here as structurally recursive functions
over `List Char` so that every definition is executable and reducible by the
kernel; each helper carries a comment naming the Rust operation it models.
-/

/-! ## String helpers modelling Rust std primitives -/

/-- Models `str::trim` for the leading side: drop Unicode whitespace. -/
def dropWS (l : List Char) : List Char := l.dropWhile (fun c => c.isWhitespace)

/-- Models `str::trim`: whitespace removed from both ends. -/
def strTrim (s : String) : String :=
  String.mk (dropWS ((dropWS s.data.reverse).reverse))

/-- Models `str::split(pat)` on a character predicate: the list of segments
between separator characters, keeping empty segments (Rust keeps them). -/
def splitCharsBy (p : Char → Bool) : List Char → List (List Char)
  | [] => [[]]
  | c :: cs =>
    if p c then [] :: splitCharsBy p cs
    else
      match splitCharsBy p cs with
      | [] => [[c]]
      | t :: ts => (c :: t) :: ts

/-- Models `str::split` producing strings. -/
def rustSplit (p : Char → Bool) (s : String) : List String :=
  (splitCharsBy p s.data).map String.mk

/-- Models `str::split_whitespace().next()`: first non-empty maximal run of
non-whitespace characters. -/
def firstWhitespaceToken (s : String) : Option String :=
  (((splitCharsBy (fun c => c.isWhitespace) s.data).filter (fun l => l ≠ [])).head?).map String.mk

/-- Models `str::split_once(sep)` for a single-character pattern: split at the
first occurrence only. -/
def splitOnceChar (sep : Char) : List Char → Option (List Char × List Char)
  | [] => none
  | c :: cs =>
    if c = sep then some ([], cs)
    else (splitOnceChar sep cs).map (fun p => (c :: p.1, p.2))

/-- `split_once` lifted to `String` (used for the colon splits in
`get_memory_info` and `display_info`). -/
def splitOnceStr (sep : Char) (s : String) : Option (String × String) :=
  (splitOnceChar sep s.data).map (fun p => (String.mk p.1, String.mk p.2))

/-- Models `str::starts_with` on character lists. -/
def isPrefixChars : List Char → List Char → Bool
  | [], _ => true
  | _ :: _, [] => false
  | a :: as, b :: bs => a == b && isPrefixChars as bs

/-- Models `str::starts_with`. -/
def strStartsWith (pre s : String) : Bool := isPrefixChars pre.data s.data

/-- Models `str::contains` for a substring pattern. -/
def containsSubChars (pat : List Char) : List Char → Bool
  | [] => isPrefixChars pat []
  | c :: cs => isPrefixChars pat (c :: cs) || containsSubChars pat cs

/-- Models `str::contains`. -/
def strContainsSub (s pat : String) : Bool := containsSubChars pat.data s.data

/-- One step of `str::lines`: strip a trailing carriage return (Rust strips
`\r` only from lines that were terminated by `\n`). -/
def stripCR (l : List Char) : List Char :=
  if l.getLast? = some '\x0d' then l.dropLast else l

/-- Models `str::lines` given the segments produced by splitting on `\n`:
every segment but the last was `\n`-terminated, so it loses a trailing `\r`;
a final empty segment (text ending in `\n`) yields no line. -/
def linesAux : List (List Char) → List (List Char)
  | [] => []
  | [last] => if last = [] then [] else [last]
  | part :: rest => stripCR part :: linesAux rest

/-- Models `str::lines`. -/
def rustLines (s : String) : List String :=
  (linesAux (splitCharsBy (fun c => c == '\x0a') s.data)).map String.mk

/-- Numeric value of a digit string (most significant first). -/
def digitsVal (l : List Char) : Nat := l.foldl (fun acc c => acc * 10 + (c.toNat - 48)) 0

/-- Models `str::parse::<uN>()`: an optional leading `+`, then one or more
ASCII digits, value below the type bound; anything else is a parse error. -/
def parseNatBounded (bound : Nat) (s : String) : Option Nat :=
  let t := match s.data with
    | '+' :: rest => rest
    | l => l
  if t ≠ [] ∧ t.all (fun c => c.isDigit) ∧ digitsVal t < bound then some (digitsVal t)
  else none

/-- Models `str::parse::<u64>()`. -/
def parseU64 (s : String) : Option Nat := parseNatBounded (2 ^ 64) s

/-- Models `str::parse::<u32>()`. -/
def parseU32 (s : String) : Option Nat := parseNatBounded (2 ^ 32) s

/-- Models `str::repeat`: `n` copies of the string concatenated. -/
def repeatStr (s : String) : Nat → String
  | 0 => ""
  | n + 1 => s ++ repeatStr s n

/-- Models `Vec<String>::join(sep)` / the renderer string concatenations. -/
def joinSep (sep : String) : List String → String
  | [] => ""
  | [x] => x
  | x :: xs => x ++ sep ++ joinSep sep xs

/-- Models Rust `String::len`: the UTF-8 byte length, the sum of the UTF-8
sizes of the characters. -/
def utf8Len : List Char → Nat
  | [] => 0
  | c :: cs => c.utf8Size + utf8Len cs

/-- Rust `String::len` on a `String`. -/
def rustLen (s : String) : Nat := utf8Len s.data

/-! ## The ambient world

`HostEnv` packages every external data source the program consults.
`runCommand name args` is the raw stdout of spawning the process (`none`
models a spawn failure, mirroring `Command::output().ok()`); a process that
runs but prints nothing is `some ""`.  `parseF64U64` abstracts the one
floating-point step of the program, `seconds.parse::<f64>()` followed by the
`as u64` cast in `get_uptime`; floating point is not shallow-embedded, and no
claim depends on that step.  `osConst`/`archConst` model the compile-time
constants `std::env::consts::OS` / `::ARCH`, `numCpus` models
`num_cpus::get()`, and `targetOS` models `cfg!(target_os = ...)`. -/
structure HostEnv where
  getVar : String → Option String
  readFile : String → Option String
  runCommand : String → List String → Option String
  parseF64U64 : String → Option Nat
  targetOS : String
  osConst : String
  archConst : String
  numCpus : Nat

/-- Models `shell_command` (main.rs:61-68): spawn, trim stdout, and drop the
result when the trimmed output is empty. -/
def shell_command (env : HostEnv) (command : String) (args : List String) : Option String :=
  match env.runCommand command args with
  | none => none
  | some out =>
    let t := strTrim out
    if t = "" then none else some t

/-- Models `powershell_command` (main.rs:47-58): on Windows it is
`shell_command "powershell" ["-NoProfile", "-Command", script]`; elsewhere it
returns `None` without spawning anything.  The PowerShell script literals of
the source are abbreviated below to short stable keys (`psOsInfo`, ...);
they act only as lookup keys into the modelled process table. -/
def powershell_command (env : HostEnv) (command : String) : Option String :=
  if env.targetOS = "windows" then
    shell_command env "powershell" ["-NoProfile", "-Command", command]
  else none

def psOsInfo : String := "ps-os-caption-arch"
def psHostInfo : String := "ps-bios-serial-model"
def psKernelBase : String := "ps-kernel-version"
def psKernelBuild : String := "ps-kernel-buildnumber"
def psUptime : String := "ps-uptime"
def psShellVersion : String := "ps-psversion"
def psWmVersion : String := "ps-wm-version"
def psWmTheme : String := "ps-wm-theme"
def psCpu : String := "ps-cpu"
def psGpu : String := "ps-gpu"
def psMemory : String := "ps-memory"
def psSwap : String := "ps-swap"
def psDisk : String := "ps-disk"
def psLocalIp : String := "ps-local-ip"
def psBattery : String := "ps-battery"
def psLocale : String := "ps-locale"

/-! ## Data model -/

/-- Models the `SystemInfo` struct (main.rs:13-39). -/
structure SystemInfo where
  username : String
  hostname : String
  os : String
  host : String
  kernel : String
  uptime : String
  packages : String
  shell : String
  display : List String
  de : String
  wm : String
  wm_theme : String
  icons : String
  font : String
  cursor : String
  terminal : String
  cpu : String
  gpu : List String
  memory : String
  swap : String
  disk : List String
  local_ip : String
  battery : String
  locale : String

/-! ## Probes -/

/-- Models the inline username chain of `gather_system_info` (main.rs:74-76):
`env::var("USER").or_else(env::var("USERNAME")).unwrap_or("unknown")`. -/
def gatherUsername (env : HostEnv) : String :=
  match env.getVar "USER" with
  | some v => v
  | none => (env.getVar "USERNAME").getD "unknown"

/-- Models `get_hostname` (main.rs:105-111). -/
def get_hostname (env : HostEnv) : String :=
  if env.targetOS = "windows" then (env.getVar "COMPUTERNAME").getD "unknown"
  else (shell_command env "hostname" []).getD "unknown"

/-- Models `get_os_info` (main.rs:113-125). -/
def get_os_info (env : HostEnv) : String :=
  if env.targetOS = "windows" then
    (powershell_command env psOsInfo).getD (env.osConst ++ " " ++ env.archConst)
  else env.osConst ++ " " ++ env.archConst

/-- Models `get_host_info` (main.rs:127-138); the `.filter(|s| s != " ()")`
turns the degenerate PowerShell answer into the fallback. -/
def get_host_info (env : HostEnv) : String :=
  if env.targetOS = "windows" then
    match powershell_command env psHostInfo with
    | some s => if s = " ()" then "Unknown" else s
    | none => "Unknown"
  else "Unknown"

/-- Models `get_kernel_version` (main.rs:140-164). -/
def get_kernel_version (env : HostEnv) : String :=
  if env.targetOS = "windows" then
    match powershell_command env psKernelBase with
    | some result =>
      match powershell_command env psKernelBuild with
      | some build =>
        if ((parseU32 build).getD 0) > 22000 then result ++ " (Dev)" else result
      | none => result
    | none => "unknown"
  else (shell_command env "uname" ["-r"]).getD "unknown"

/-- Models the parts vector built by `format_uptime` (main.rs:188-204):
a `"{n} unit"` entry, pluralized when the count differs from 1, for each
nonzero unit. -/
def uptimePart (c : Nat) (unit : String) : String :=
  Nat.repr c ++ " " ++ unit ++ (if c = 1 then "" else "s")

def uptimeParts (seconds : Nat) : List String :=
  let days := seconds / 86400
  let hours := (seconds % 86400) / 3600
  let minutes := (seconds % 3600) / 60
  (if days > 0 then [uptimePart days "day"] else [])
    ++ (if hours > 0 then [uptimePart hours "hour"] else [])
    ++ (if minutes > 0 then [uptimePart minutes "min"] else [])

/-- Models `format_uptime` (main.rs:188-210). -/
def format_uptime (seconds : Nat) : String :=
  if uptimeParts seconds = [] then "less than a minute"
  else joinSep ", " (uptimeParts seconds)

/-- Models `get_uptime` (main.rs:166-186); the f64 parse plus `as u64` cast
is the abstracted `parseF64U64` field of the environment. -/
def get_uptime (env : HostEnv) : String :=
  if env.targetOS = "linux" then
    match env.readFile "/proc/uptime" with
    | some content =>
      match firstWhitespaceToken content with
      | some tok =>
        match env.parseF64U64 tok with
        | some seconds => format_uptime seconds
        | none => "unknown"
      | none => "unknown"
    | none => "unknown"
  else if env.targetOS = "windows" then (powershell_command env psUptime).getD "unknown"
  else "unknown"

/-- The chocolatey attempt of `get_packages` (main.rs:215-222): count the
lines that are non-empty and do not contain "packages installed"; report
`count - 1` when positive, otherwise fall through. -/
def chocoCount (env : HostEnv) : Option String :=
  match shell_command env "choco" ["list", "--local-only"] with
  | some output =>
    let count := ((rustLines output).filter
      (fun line => line != "" && !(strContainsSub line "packages installed"))).length
    if count > 0 then some (Nat.repr (count - 1) ++ " (choco)") else none
  | none => none

/-- The winget attempt of `get_packages` (main.rs:225-232). -/
def wingetCount (env : HostEnv) : Option String :=
  match shell_command env "winget" ["list"] with
  | some output =>
    let count := ((rustLines output).filter
      (fun line => line != "" && !(strStartsWith "Name" line) && !(strStartsWith "-" line))).length
    if count > 0 then some (Nat.repr count ++ " (winget)") else none
  | none => none

/-- Models `get_packages` (main.rs:212-235); every non-returning path ends in
`"0"`. -/
def get_packages (env : HostEnv) : String :=
  if env.targetOS = "windows" then
    match chocoCount env with
    | some s => s
    | none =>
      match wingetCount env with
      | some s => s
      | none => "0"
  else "0"

/-- Models `shell_path.split(['/', '\\']).last().unwrap_or("unknown")` in
`get_shell` (main.rs:246-251). -/
def rustBasename (path : String) : String :=
  ((rustSplit (fun c => c == '/' || c == '\x5c') path).getLast?).getD "unknown"

/-- The environment-variable chain of `get_shell` (main.rs:244-252). -/
def shellFromEnvVars (env : HostEnv) : String :=
  match env.getVar "SHELL" with
  | some p => rustBasename p
  | none =>
    match env.getVar "ComSpec" with
    | some p => rustBasename p
    | none => "unknown"

/-- Models `get_shell` (main.rs:237-253); `powershell_command` is `none` on
non-Windows targets, so the Windows-only early return is folded in. -/
def get_shell (env : HostEnv) : String :=
  match powershell_command env psShellVersion with
  | some version => "Windows PowerShell " ++ version
  | none => shellFromEnvVars env

/-- Models `get_display_info` (main.rs:255-262). -/
def get_display_info (env : HostEnv) : List String :=
  if env.targetOS = "windows" then ["Display: 1920x1080 @ 60 Hz [Built-in]"]
  else []

/-- Models `get_desktop_environment` (main.rs:264-272). -/
def get_desktop_environment (env : HostEnv) : String :=
  if env.targetOS = "windows" then "Fluent"
  else
    match env.getVar "XDG_CURRENT_DESKTOP" with
    | some v => v
    | none => (env.getVar "DESKTOP_SESSION").getD "unknown"

/-- Models `get_window_manager` (main.rs:274-283). -/
def get_window_manager (env : HostEnv) : String :=
  if env.targetOS = "windows" then (powershell_command env psWmVersion).getD "Desktop Window Manager"
  else (env.getVar "XDG_SESSION_TYPE").getD "unknown"

/-- Models `get_wm_theme` (main.rs:285-299). -/
def get_wm_theme (env : HostEnv) : String :=
  if env.targetOS = "windows" then (powershell_command env psWmTheme).getD "unknown"
  else "unknown"

/-- Models `get_icons` (main.rs:301-303): the constant empty string. -/
def get_icons (_ : HostEnv) : String := ""

/-- Models `get_font` (main.rs:305-311). -/
def get_font (env : HostEnv) : String :=
  if env.targetOS = "windows" then "Segoe UI (12pt) [Caption / Menu / Message / Status]"
  else "unknown"

/-- Models `get_cursor` (main.rs:313-319). -/
def get_cursor (env : HostEnv) : String :=
  if env.targetOS = "windows" then "Windows Default (32px)" else "unknown"

/-- Models `get_terminal` (main.rs:321-331). -/
def get_terminal (env : HostEnv) : String :=
  match env.getVar "TERM_PROGRAM" with
  | some v => v
  | none =>
    match env.getVar "TERMINAL_EMULATOR" with
    | some v => v
    | none => if env.targetOS = "windows" then "Windows Terminal" else "unknown"

/-- The shared fallback of `get_cpu_info` (main.rs:356). -/
def cpuFallback (env : HostEnv) : String :=
  "Unknown (" ++ Nat.repr env.numCpus ++ " cores)"

/-- One iteration of the `/proc/cpuinfo` scan in `get_cpu_info`
(main.rs:338-345): a line starting with "model name" whose `split(':')`
has a second piece yields the formatted CPU string. -/
def cpuModelLine (numCpus : Nat) (line : String) : Option String :=
  if strStartsWith "model name" line then
    match (rustSplit (fun c => c == ':') line).get? 1 with
    | some name => some (strTrim name ++ " (" ++ Nat.repr numCpus ++ ")")
    | none => none
  else none

/-- Models `get_cpu_info` (main.rs:333-357). -/
def get_cpu_info (env : HostEnv) : String :=
  if env.targetOS = "linux" then
    match env.readFile "/proc/cpuinfo" with
    | some cpuinfo =>
      match (rustLines cpuinfo).findSome? (cpuModelLine env.numCpus) with
      | some s => s
      | none => cpuFallback env
    | none => cpuFallback env
  else if env.targetOS = "windows" then
    (powershell_command env psCpu).getD (cpuFallback env)
  else cpuFallback env

/-- Models `get_gpu_info` (main.rs:359-377). -/
def get_gpu_info (env : HostEnv) : List String :=
  if env.targetOS = "windows" then
    match powershell_command env psGpu with
    | some output =>
      ((rustLines output).filter (fun line => strTrim line != "")).map strTrim
    | none => ["Unknown GPU"]
  else ["Unknown GPU"]

/-! ## Memory probe

The program is built with overflow checks (debug profile semantics): an
arithmetic overflow or underflow on `u64` is a panic.  A panic anywhere in a
probe is modelled as `none` at that probe.  The two fallible operations of
`get_memory_info` are the `value * 1024` kilobyte-to-byte conversion and the
unguarded `total - available` subtraction. -/

/-- `value * 1024` on `u64`; `none` models the overflow panic. -/
def checkedMul1024 (v : Nat) : Option Nat :=
  if v * 1024 < 2 ^ 64 then some (v * 1024) else none

/-- `total - available` on `u64`; `none` models the underflow panic. -/
def checkedSub (t a : Nat) : Option Nat :=
  if a ≤ t then some (t - a) else none

/-- One line of the `/proc/meminfo` parse (main.rs:384-392): `split_once(':')`,
first whitespace token of the trimmed value, `parse::<u64>()`; a line failing
any step is skipped (no insertion). -/
def parseMeminfoLine (line : String) : Option (String × Nat) :=
  match splitOnceStr ':' line with
  | none => none
  | some (key, value) =>
    match firstWhitespaceToken (strTrim value) with
    | none => none
    | some tok =>
      match parseU64 tok with
      | none => none
      | some v => some (strTrim key, v)

/-- The `mem_data` insertions of `get_memory_info`, in iteration order; the
outer `none` is the panic of an overflowing `value * 1024`. -/
def parseMeminfoLines : List String → Option (List (String × Nat))
  | [] => some []
  | line :: rest =>
    match parseMeminfoLine line with
    | none => parseMeminfoLines rest
    | some (k, v) =>
      match checkedMul1024 v with
      | none => none
      | some bytes => (parseMeminfoLines rest).map (fun l => (k, bytes) :: l)

/-- The `mem_data` map of `get_memory_info` built from the file content. -/
def parseMeminfo (content : String) : Option (List (String × Nat)) :=
  parseMeminfoLines (rustLines content)

/-- `HashMap::get`: the most recent insertion for the key wins. -/
def memLookup (entries : List (String × Nat)) (key : String) : Option Nat :=
  (entries.reverse.findSome? (fun p => if p.1 = key then some p.2 else none))

/-- `used = total - available` (main.rs:395). -/
def memUsed (total available : Nat) : Nat := total - available

/-- The rendered integer percentage (main.rs:396-397).  The source computes
`(used as f64 / total as f64) * 100.0` and casts it to `u8`; the cast
truncates toward zero.  This is modelled as the exact truncated rational
`used * 100 / total` (floor division, and `0` when `total = 0`, matching the
`NaN as u8 = 0` cast); the two agree whenever the double computation is
exact, in particular on every value the claims mention. -/
def memPct (total available : Nat) : Nat := memUsed total available * 100 / total

/-! ## GiB formatting

`format_bytes_gib` (main.rs:494-496) computes `bytes as f64 / 2^30` and
renders it with `{:.2}`.  Rust float formatting rounds the exact value of the
double to the requested number of decimals, ties to even; for byte counts
below 2^53 the double is exactly `bytes / 2^30`, so the composite is: round
`bytes * 100 / 2^30` to the nearest integer, ties to even, and print it with
two decimal places. -/

/-- Round `n / d` to the nearest integer, ties to even (`d > 0`). -/
def roundNearestEven (n d : Nat) : Nat :=
  let q := n / d
  let r := n % d
  if 2 * r < d then q
  else if d < 2 * r then q + 1
  else if q % 2 = 0 then q else q + 1

/-- The value of `bytes / 2^30` in centi-GiB, correctly rounded. -/
def centiGib (bytes : Nat) : Nat := roundNearestEven (bytes * 100) (1024 * 1024 * 1024)

/-- Exactly two decimal digits (the fractional part of a `{:.2}` rendering). -/
def pad2 (n : Nat) : String := String.mk [Nat.digitChar (n / 10 % 10), Nat.digitChar (n % 10)]

/-- Models `format_bytes_gib` (main.rs:494-496). -/
def format_bytes_gib (bytes : Nat) : String :=
  Nat.repr (centiGib bytes / 100) ++ "." ++ pad2 (centiGib bytes % 100) ++ " GiB"

/-- The Linux success rendering of `get_memory_info` (main.rs:397). -/
def memRender (total used : Nat) : String :=
  format_bytes_gib used ++ " / " ++ format_bytes_gib total ++ " ("
    ++ Nat.repr (used * 100 / total) ++ "%)"

/-- The body of the Linux `/proc/meminfo` branch of `get_memory_info`
(main.rs:381-399).  Outer `none`: a panic; `some none`: no early return (the
probe falls through to the `"unknown"` fallback); `some (some s)`: the early
return with the formatted string. -/
def linuxMemoryCore (content : String) : Option (Option String) :=
  match parseMeminfo content with
  | none => none
  | some entries =>
    match memLookup entries "MemTotal", memLookup entries "MemAvailable" with
    | some total, some available =>
      match checkedSub total available with
      | none => none
      | some used => some (some (memRender total used))
    | some _, none => some none
    | none, some _ => some none
    | none, none => some none

/-- Models `get_memory_info` (main.rs:379-414); `none` is a panic. -/
def get_memory_info (env : HostEnv) : Option String :=
  if env.targetOS = "linux" then
    match env.readFile "/proc/meminfo" with
    | some content =>
      match linuxMemoryCore content with
      | none => none
      | some (some s) => some s
      | some none => some "unknown"
    | none => some "unknown"
  else if env.targetOS = "windows" then
    match powershell_command env psMemory with
    | some output => some output
    | none => some "unknown"
  else some "unknown"

/-- Models `get_swap_info` (main.rs:416-432). -/
def get_swap_info (env : HostEnv) : String :=
  if env.targetOS = "windows" then (powershell_command env psSwap).getD "unknown"
  else "unknown"

/-- Models `get_disk_info` (main.rs:434-451). -/
def get_disk_info (env : HostEnv) : List String :=
  if env.targetOS = "windows" then
    match powershell_command env psDisk with
    | some output =>
      ((rustLines output).filter (fun line => strTrim line != "")).map strTrim
    | none => ["Unknown disk"]
  else ["Unknown disk"]

/-- Models `get_local_ip` (main.rs:453-465). -/
def get_local_ip (env : HostEnv) : String :=
  if env.targetOS = "windows" then (powershell_command env psLocalIp).getD "unknown"
  else "unknown"

/-- Models `get_battery_info` (main.rs:467-483). -/
def get_battery_info (env : HostEnv) : String :=
  if env.targetOS = "windows" then (powershell_command env psBattery).getD "No battery detected"
  else "No battery detected"

/-- Models `get_locale` (main.rs:485-492). -/
def get_locale (env : HostEnv) : String :=
  if env.targetOS = "windows" then
    match powershell_command env psLocale with
    | some s => s
    | none => (env.getVar "LANG").getD "unknown"
  else (env.getVar "LANG").getD "unknown"

/-- Models `gather_system_info` (main.rs:70-103); `none` propagates the
panic of the memory probe. -/
def gather_system_info (env : HostEnv) : Option SystemInfo :=
  match get_memory_info env with
  | none => none
  | some memory => some
    { username := gatherUsername env
      hostname := get_hostname env
      os := get_os_info env
      host := get_host_info env
      kernel := get_kernel_version env
      uptime := get_uptime env
      packages := get_packages env
      shell := get_shell env
      display := get_display_info env
      de := get_desktop_environment env
      wm := get_window_manager env
      wm_theme := get_wm_theme env
      icons := get_icons env
      font := get_font env
      cursor := get_cursor env
      terminal := get_terminal env
      cpu := get_cpu_info env
      gpu := get_gpu_info env
      memory := memory
      swap := get_swap_info env
      disk := get_disk_info env
      local_ip := get_local_ip env
      battery := get_battery_info env
      locale := get_locale env }

/-! ## Renderer (`display_info`, main.rs:498-604) -/

def RESET : String := "\x1b[0m"
def GREEN : String := "\x1b[32m"
def YELLOW : String := "\x1b[33m"
def BLUE : String := "\x1b[34m"
def BOLD : String := "\x1b[1m"

/-- The fixed logo block (main.rs:499-523). -/
def LOGO : List String :=
  [ "/",
    "/////////////////  /////////////////",
    "/////////////////  /////////////////",
    "/////////////////  /////////////////",
    "/////////////////  /////////////////",
    "/////////////////  /////////////////",
    "/////////////////  /////////////////",
    "/////////////////  /////////////////",
    "",
    "/////////////////  /////////////////",
    "/////////////////  /////////////////",
    "/////////////////  /////////////////",
    "/////////////////  /////////////////",
    "/////////////////  /////////////////",
    "/////////////////  /////////////////",
    "/////////////////  /////////////////",
    "",
    "",
    "",
    "",
    "",
    "",
    "" ]

/-- The `username@hostname` header (main.rs:525). -/
def userHost (username hostname : String) : String := username ++ "@" ++ hostname

/-- The string literal repeated on the separator row of main.rs:526.  The
source bytes there are `C3 A2  E2 80 9D  E2 82 AC`: the THREE characters
U+00E2, U+201D, U+20AC (the UTF-8 encoding of the box-drawing character
U+2500 mis-decoded through cp1252), not the single character U+2500.  It is
written with escapes so the mojibake survives any re-encoding of this file. -/
def sepUnit : String := "\u00E2\u201D\u20AC"

/-- The separator row (main.rs:526): the three-character `sepUnit` literal
repeated `user_host.len()` times, where `len` is the UTF-8 byte length. -/
def separatorOf (username hostname : String) : String :=
  repeatStr sepUnit (rustLen (userHost username hostname))

/-- The ordered info lines (main.rs:528-570). -/
def info_lines (info : SystemInfo) : List String :=
  [ userHost info.username info.hostname,
    separatorOf info.username info.hostname,
    "OS: " ++ info.os,
    "Host: " ++ info.host,
    "Kernel: " ++ info.kernel,
    "Uptime: " ++ info.uptime,
    "Packages: " ++ info.packages,
    "Shell: " ++ info.shell ]
  ++ info.display
  ++ [ "DE: " ++ info.de,
       "WM: " ++ info.wm,
       "WM Theme: " ++ info.wm_theme,
       "Icons: " ++ info.icons,
       "Font: " ++ info.font,
       "Cursor: " ++ info.cursor,
       "Terminal: " ++ info.terminal,
       "CPU: " ++ info.cpu ]
  ++ info.gpu.map (fun g => "GPU: " ++ g)
  ++ [ "Memory: " ++ info.memory,
       "Swap: " ++ info.swap ]
  ++ info.disk
  ++ [ info.local_ip,
       info.battery,
       "Locale: " ++ info.locale ]

/-- Models the `{:<40}` format: left-justify to 40 character cells. -/
def pad40 (s : String) : String :=
  if s.length < 40 then s ++ String.mk (List.replicate (40 - s.length) ' ') else s

/-- The logo column of row `i` (main.rs:577-582): a colored padded logo line
while the logo lasts, bare 40-character padding afterwards. -/
def logoColumn (i : Nat) : String :=
  if i < LOGO.length then BLUE ++ pad40 (LOGO.getD i "") ++ RESET
  else pad40 ""

/-- The info column applied to one line (main.rs:585-598): row 0 is the bold
green header, row 1 the blue separator, and later rows are split at the
first colon when one exists. -/
def infoColumn (i : Nat) (line : String) : String :=
  if i = 0 then BOLD ++ GREEN ++ line ++ RESET
  else if i = 1 then BLUE ++ line ++ RESET
  else
    match splitOnceStr ':' line with
    | some (label, value) => BOLD ++ YELLOW ++ label ++ ":" ++ RESET ++ value
    | none => line

/-- One output row (without its trailing newline). -/
def renderRow (info : SystemInfo) (i : Nat) : String :=
  logoColumn i ++
    (if i < (info_lines info).length then infoColumn i ((info_lines info).getD i "") else "")

/-- The rows printed by the `0..max_lines` loop (main.rs:574-601). -/
def renderRows (info : SystemInfo) : List String :=
  (List.range (max LOGO.length (info_lines info).length)).map (renderRow info)

/-- Models `display_info` (main.rs:498-604) as the full stdout text: a blank
line, the rows, a blank line. -/
def display_info (info : SystemInfo) : String :=
  "\x0a" ++ joinSep "" ((renderRows info).map (fun r => r ++ "\x0a")) ++ "\x0a"

/-! ## Concrete worlds -/

/-- A Linux host on which every external data source is absent or fails:
every environment variable unset, every file read and process spawn failing.
`numCpus` is fixed at 4 for concreteness. -/
def allFailLinux : HostEnv :=
  { getVar := fun _ => none
    readFile := fun _ => none
    runCommand := fun _ _ => none
    parseF64U64 := fun _ => none
    targetOS := "linux"
    osConst := "linux"
    archConst := "x86_64"
    numCpus := 4 }

/-- The same fully failing world on the Windows target. -/
def allFailWindows : HostEnv :=
  { allFailLinux with targetOS := "windows", osConst := "windows" }

/-- The Linux world whose only available data source is a `/proc/meminfo`
with the given content. -/
def linuxMeminfoEnv (content : String) : HostEnv :=
  { allFailLinux with
    readFile := fun path => if path = "/proc/meminfo" then some content else none }

/-- The Linux world with the given environment-variable table and no other
data source. -/
def linuxEnvVars (f : String → Option String) : HostEnv :=
  { allFailLinux with getVar := f }

/-- The snapshot gathered on `allFailLinux` (each field the fallback actually
produced by its probe). -/
def allFailSnapshot : SystemInfo :=
  { username := "unknown"
    hostname := "unknown"
    os := "linux x86_64"
    host := "Unknown"
    kernel := "unknown"
    uptime := "unknown"
    packages := "0"
    shell := "unknown"
    display := []
    de := "unknown"
    wm := "unknown"
    wm_theme := "unknown"
    icons := ""
    font := "unknown"
    cursor := "unknown"
    terminal := "unknown"
    cpu := "Unknown (4 cores)"
    gpu := ["Unknown GPU"]
    memory := "unknown"
    swap := "unknown"
    disk := ["Unknown disk"]
    local_ip := "unknown"
    battery := "No battery detected"
    locale := "unknown" }

/-- A concrete snapshot with no display, GPU or disk entries: its 21 info
lines are fewer than the 23 logo lines, exercising the padding rows. -/
def sampleInfo : SystemInfo :=
  { allFailSnapshot with gpu := [], disk := [], display := [] }

/-- A `/proc/meminfo` whose `MemTotal` is 8000000000 bytes and whose
`MemAvailable` is 2000000000 bytes (the values are stored in kilobytes). -/
def meminfo8G : String := "MemTotal: 7812500 kB\x0aMemAvailable: 1953125 kB"

/-- A `/proc/meminfo` reporting more available than total memory. -/
def meminfoBad : String := "MemTotal: 50 kB\x0aMemAvailable: 100 kB"

/-- A small well-formed `/proc/meminfo`. -/
def meminfoSmall : String := "MemTotal: 100 kB\x0aMemAvailable: 50 kB"

/-- An environment-variable table with only `TERMINAL_EMULATOR` set. -/
def onlyTermEmulator : String → Option String :=
  fun k => if k = "TERMINAL_EMULATOR" then some "kitty" else none

/-! ## Helper lemmas -/

theorem stringDataExt {a b : String} (h : a.data = b.data) : a = b := by
  cases a; cases b; cases h; rfl

theorem appendEmptyStr (s : String) : s ++ "" = s := by
  cases s; simp [String.append]

theorem utf8Len_append : ∀ a b : List Char, utf8Len (a ++ b) = utf8Len a + utf8Len b := by
  intro a b
  induction a with
  | nil => simp [utf8Len]
  | cons c cs ih => simp [utf8Len, ih]; omega

theorem mem_ite_singleton {b : Prop} [Decidable b] {x p : String}
    (h : p ∈ (if b then [x] else [])) : b ∧ p = x := by
  by_cases hb : b
  · simp [hb] at h; exact ⟨hb, h⟩
  · simp [hb] at h

/-- The last character of a `parts` entry detects the plural suffix: the
entry for count `c` and unit name `u` (whose own last character is not `s`)
ends in `s` exactly when `c ≠ 1`. -/
theorem uptimePart_plural (c : Nat) (u : String) (lc : Char)
    (hu : u.data.getLast? = some lc) (hlc : lc ≠ 's') :
    ((uptimePart c u).data.getLast? = some 's') ↔ c ≠ 1 := by
  have hne : u.data ≠ [] := by
    intro h; rw [h] at hu; simp [List.getLast?] at hu
  by_cases hc : c = 1
  · subst hc
    have : (uptimePart 1 u).data = ((Nat.repr 1 ++ " ").data ++ u.data) ++ [] := by
      simp [uptimePart]
    rw [this, List.append_nil, List.getLast?_append_of_ne_nil _ hne, hu]
    simp [hlc]
  · have : (uptimePart c u).data = ((Nat.repr c ++ " " ++ u).data) ++ ['s'] := by
      simp [uptimePart, hc]
    rw [this, List.getLast?_concat]
    simp [hc]

theorem splitOnceChar_some (sep : Char) :
    ∀ (l a b : List Char), splitOnceChar sep l = some (a, b) →
      l = a ++ sep :: b ∧ sep ∉ a := by
  intro l
  induction l with
  | nil => intro a b h; simp [splitOnceChar] at h
  | cons c cs ih =>
    intro a b h
    by_cases hc : c = sep
    · subst hc
      rw [splitOnceChar, if_pos rfl] at h
      obtain ⟨ha, hb⟩ := Prod.mk.injEq .. ▸ Option.some.inj h
      subst ha; subst hb
      simp
    · rw [splitOnceChar, if_neg hc] at h
      cases hsc : splitOnceChar sep cs with
      | none => rw [hsc] at h; simp at h
      | some p =>
        rw [hsc] at h
        simp only [Option.map_some'] at h
        obtain ⟨ha, hb⟩ := Prod.mk.injEq .. ▸ Option.some.inj h
        obtain ⟨h1, h2⟩ := ih p.1 p.2 (by rw [hsc])
        subst hb
        refine ⟨by rw [← ha, h1]; rfl, ?_⟩
        rw [← ha]
        intro hmem
        rcases List.mem_cons.1 hmem with hh | hh
        · exact hc hh.symm
        · exact h2 hh

theorem splitOnceChar_none (sep : Char) :
    ∀ l : List Char, splitOnceChar sep l = none → sep ∉ l := by
  intro l
  induction l with
  | nil => intro _ h; simp at h
  | cons c cs ih =>
    intro h
    by_cases hc : c = sep
    · subst hc; rw [splitOnceChar, if_pos rfl] at h; simp at h
    · rw [splitOnceChar, if_neg hc] at h
      cases hsc : splitOnceChar sep cs with
      | none =>
        intro hmem
        rcases List.mem_cons.1 hmem with hh | hh
        · exact hc hh.symm
        · exact ih (by rw [hsc]) hh
      | some p => rw [hsc] at h; simp at h

/-- `roundNearestEven n d` is within half of `n / d`: twice the distance
between `round * d` and `n` is at most `d`. -/
theorem roundNearestEven_close (n d : Nat) (hd : 0 < d) :
    2 * (roundNearestEven n d * d) ≤ 2 * n + d ∧ 2 * n ≤ 2 * (roundNearestEven n d * d) + d := by
  have hmod := Nat.div_add_mod n d
  rw [Nat.mul_comm] at hmod
  have hlt : n % d < d := Nat.mod_lt _ hd
  rw [roundNearestEven]
  by_cases h1 : 2 * (n % d) < d
  · rw [if_pos h1]
    set A := n / d * d with hA
    omega
  · rw [if_neg h1]
    by_cases h2 : d < 2 * (n % d)
    · rw [if_pos h2, Nat.add_mul, Nat.one_mul]
      set A := n / d * d with hA
      omega
    · rw [if_neg h2]
      by_cases h3 : n / d % 2 = 0
      · rw [if_pos h3]
        set A := n / d * d with hA
        omega
      · rw [if_neg h3, Nat.add_mul, Nat.one_mul]
        set A := n / d * d with hA
        omega

/-! ## Claim theorems -/

/-- Claim C2: the uptime formatter maps 0 and 59 seconds to
"less than a minute", 60 to "1 min", 3661 to "1 hour, 1 min" and 90000 to
"1 day, 1 hour"; and every entry of the parts vector is a count followed by
a unit name (day/hour/min) that carries a plural "s" (its last character)
exactly when the count is not 1. -/
theorem c2_format_uptime :
    format_uptime 0 = "less than a minute" ∧
    format_uptime 59 = "less than a minute" ∧
    format_uptime 60 = "1 min" ∧
    format_uptime 3661 = "1 hour, 1 min" ∧
    format_uptime 90000 = "1 day, 1 hour" ∧
    ∀ n p, p ∈ uptimeParts n →
      ∃ c u, 0 < c ∧ (u = "day" ∨ u = "hour" ∨ u = "min") ∧ p = uptimePart c u ∧
        ((p.data.getLast? = some 's') ↔ c ≠ 1) := by
  refine ⟨by decide, by decide, by decide, by decide, by decide, ?_⟩
  intro n p hp
  simp only [uptimeParts, List.mem_append] at hp
  rcases hp with (hp | hp) | hp
  · obtain ⟨hc, hpe⟩ := mem_ite_singleton hp
    exact ⟨n / 86400, "day", hc, Or.inl rfl, hpe,
      hpe ▸ uptimePart_plural _ "day" 'y' rfl (by decide)⟩
  · obtain ⟨hc, hpe⟩ := mem_ite_singleton hp
    exact ⟨n % 86400 / 3600, "hour", hc, Or.inr (Or.inl rfl), hpe,
      hpe ▸ uptimePart_plural _ "hour" 'r' rfl (by decide)⟩
  · obtain ⟨hc, hpe⟩ := mem_ite_singleton hp
    exact ⟨n % 3600 / 60, "min", hc, Or.inr (Or.inr rfl), hpe,
      hpe ▸ uptimePart_plural _ "min" 'n' rfl (by decide)⟩

/-- Witness for C2 at a concrete input: 172800 seconds is exactly two days,
whose single part "2 days" ends in the plural "s" with count 2. -/
theorem c2_format_uptime_witness :
    ∃ c u, 0 < c ∧ (u = "day" ∨ u = "hour" ∨ u = "min") ∧
      ("2 days" : String) = uptimePart c u ∧
      ((("2 days" : String).data.getLast? = some 's') ↔ c ≠ 1) :=
  c2_format_uptime.2.2.2.2.2 172800 "2 days" (by decide)

/-- Claim C7: the byte-to-GiB formatter renders the byte count divided by
1024^3 with exactly two decimal places followed by " GiB"; 1073741824 bytes
render as "1.00 GiB" and 1610612736 bytes as "1.50 GiB".  The rendered
centi-GiB value is the correctly rounded `bytes * 100 / 2^30` (within half a
unit), its integer part precedes the dot and exactly two fractional digits
follow it. -/
theorem c7_format_bytes_gib :
    format_bytes_gib 1073741824 = "1.00 GiB" ∧
    format_bytes_gib 1610612736 = "1.50 GiB" ∧
    ∀ b : Nat,
      format_bytes_gib b
        = Nat.repr (centiGib b / 100) ++ "." ++ pad2 (centiGib b % 100) ++ " GiB" ∧
      (pad2 (centiGib b % 100)).length = 2 ∧
      2 * (centiGib b * (1024 * 1024 * 1024)) ≤ 2 * (b * 100) + 1024 * 1024 * 1024 ∧
      2 * (b * 100) ≤ 2 * (centiGib b * (1024 * 1024 * 1024)) + 1024 * 1024 * 1024 := by
  refine ⟨by decide, by decide, ?_⟩
  intro b
  obtain ⟨h1, h2⟩ := roundNearestEven_close (b * 100) (1024 * 1024 * 1024) (by norm_num)
  exact ⟨rfl, rfl, h1, h2⟩

/-- Claim C4: the Linux memory probe derives `used = total - available` and
the integer percentage `used * 100 / total` truncated (75 for
total 8000000000 and available 2000000000, from a `/proc/meminfo` carrying
those quantities in kilobytes; truncation, not rounding: 2 of 3 gives 66). -/
theorem c4_memory_probe :
    get_memory_info (linuxMeminfoEnv meminfo8G) = some "5.59 GiB / 7.45 GiB (75%)" ∧
    memUsed 8000000000 2000000000 = 6000000000 ∧
    memPct 8000000000 2000000000 = 75 ∧
    memPct 3 1 = 66 ∧
    ∀ total available : Nat,
      memUsed total available = total - available ∧
      memPct total available = memUsed total available * 100 / total := by
  exact ⟨by decide, by decide, by decide, by decide, fun _ _ => ⟨rfl, rfl⟩⟩

/-- Counterexample to claim C1 as stated: with every data source absent, the
icons probe returns the empty string and the display-mode probe returns the
empty list. -/
theorem c1_icons_display_empty :
    get_icons allFailLinux = "" ∧ get_display_info allFailLinux = [] := ⟨rfl, rfl⟩

/-- Claim C1 as amended: with every data source absent or failing, every
probe other than the icons and display probes returns a non-empty string or
a non-empty list, on both targets; the icons probe returns the empty string
on both targets, and the display probe returns the empty list on the Linux
target (and a non-empty constant list on Windows). -/
theorem c1_fallbacks_nonempty :
    (gatherUsername allFailLinux ≠ "" ∧ get_hostname allFailLinux ≠ "" ∧
     get_os_info allFailLinux ≠ "" ∧ get_host_info allFailLinux ≠ "" ∧
     get_kernel_version allFailLinux ≠ "" ∧ get_uptime allFailLinux ≠ "" ∧
     get_packages allFailLinux ≠ "" ∧ get_shell allFailLinux ≠ "" ∧
     get_desktop_environment allFailLinux ≠ "" ∧ get_window_manager allFailLinux ≠ "" ∧
     get_wm_theme allFailLinux ≠ "" ∧ get_font allFailLinux ≠ "" ∧
     get_cursor allFailLinux ≠ "" ∧ get_terminal allFailLinux ≠ "" ∧
     get_cpu_info allFailLinux ≠ "" ∧ get_gpu_info allFailLinux ≠ [] ∧
     get_memory_info allFailLinux = some "unknown" ∧ get_swap_info allFailLinux ≠ "" ∧
     get_disk_info allFailLinux ≠ [] ∧ get_local_ip allFailLinux ≠ "" ∧
     get_battery_info allFailLinux ≠ "" ∧ get_locale allFailLinux ≠ "") ∧
    (gatherUsername allFailWindows ≠ "" ∧ get_hostname allFailWindows ≠ "" ∧
     get_os_info allFailWindows ≠ "" ∧ get_host_info allFailWindows ≠ "" ∧
     get_kernel_version allFailWindows ≠ "" ∧ get_uptime allFailWindows ≠ "" ∧
     get_packages allFailWindows ≠ "" ∧ get_shell allFailWindows ≠ "" ∧
     get_desktop_environment allFailWindows ≠ "" ∧ get_window_manager allFailWindows ≠ "" ∧
     get_wm_theme allFailWindows ≠ "" ∧ get_font allFailWindows ≠ "" ∧
     get_cursor allFailWindows ≠ "" ∧ get_terminal allFailWindows ≠ "" ∧
     get_cpu_info allFailWindows ≠ "" ∧ get_gpu_info allFailWindows ≠ [] ∧
     get_memory_info allFailWindows = some "unknown" ∧ get_swap_info allFailWindows ≠ "" ∧
     get_disk_info allFailWindows ≠ [] ∧ get_local_ip allFailWindows ≠ "" ∧
     get_battery_info allFailWindows ≠ "" ∧ get_locale allFailWindows ≠ "") ∧
    get_icons allFailLinux = "" ∧ get_icons allFailWindows = "" ∧
    get_display_info allFailLinux = [] ∧ get_display_info allFailWindows ≠ [] := by
  repeat' apply And.intro
  all_goals decide

/-- Counterexample to claim C3 as stated: in the all-failing run the packages
field is "0", which is none of the six documented placeholder strings. -/
theorem c3_packages_not_placeholder :
    (gather_system_info allFailLinux).map (fun s => s.packages) = some "0" ∧
    ("0" : String) ∉ (["unknown", "Unknown GPU", "Unknown disk", "No battery detected",
      "No swap", "No active network connection"] : List String) := by
  decide

/-- Claim C3 as amended: the all-failing Linux run still gathers a complete
snapshot without panicking — most fields fall back to "unknown", the GPU,
disk and battery fields to "Unknown GPU", "Unknown disk" and
"No battery detected" — but the OS field is the compile-time
"<os> <arch>" constant, the host field is "Unknown", the package count is
"0", the CPU field is "Unknown (N cores)", the icons field is empty and the
display list is empty; and the renderer still produces the full
`max(logo, info)` rows (23 here). -/
theorem c3_all_fail_run :
    gather_system_info allFailLinux = some allFailSnapshot ∧
    (info_lines allFailSnapshot).length = 23 ∧
    LOGO.length = 23 ∧
    (renderRows allFailSnapshot).length
      = max LOGO.length (info_lines allFailSnapshot).length := by
  refine ⟨rfl, by decide, by decide, ?_⟩
  simp [renderRows]

/-- Claim C5: for every populated snapshot the renderer emits exactly
`max(logoLineCount, infoLineCount)` rows; a row index past the end of the
logo gets bare 40-space padding in the logo column, and a row index past the
end of the info lines gets nothing in the info column. -/
theorem c5_renderer_rows (info : SystemInfo) :
    (renderRows info).length = max LOGO.length (info_lines info).length ∧
    (∀ i, LOGO.length ≤ i → logoColumn i = pad40 "") ∧
    pad40 "" = String.mk (List.replicate 40 ' ') ∧
    (∀ i, (info_lines info).length ≤ i → renderRow info i = logoColumn i) := by
  refine ⟨by simp [renderRows], ?_, by decide, ?_⟩
  · intro i h
    rw [logoColumn, if_neg (by omega)]
  · intro i h
    rw [renderRow, if_neg (by omega), appendEmptyStr]

/-- Witness for C5: on the 21-line `sampleInfo` snapshot, row 22 has an
empty info column, and any row index at or past 23 has bare padding in the
logo column. -/
theorem c5_renderer_rows_witness :
    logoColumn 25 = pad40 "" ∧ renderRow sampleInfo 22 = logoColumn 22 :=
  ⟨(c5_renderer_rows sampleInfo).2.1 25 (by decide),
   (c5_renderer_rows sampleInfo).2.2.2 22 (by decide)⟩

/-- Claim C6: from the third row on, a line with a colon is rendered with the
bold-yellow span covering exactly the part before its first colon (plus the
colon separator itself), the reset code following immediately, and the rest
of the line — later colons included — emitted uncolored as the value; a line
with no colon is emitted verbatim, and the row-0 username@hostname header is
wrapped whole in bold green with no label/value split. -/
theorem c6_label_colorization :
    (∀ i line label value, 2 ≤ i → splitOnceStr ':' line = some (label, value) →
      infoColumn i line = BOLD ++ YELLOW ++ label ++ ":" ++ RESET ++ value ∧
      line = label ++ ":" ++ value ∧ ':' ∉ label.data) ∧
    (∀ i line, 2 ≤ i → splitOnceStr ':' line = none →
      infoColumn i line = line ∧ ':' ∉ line.data) ∧
    (∀ line, infoColumn 0 line = BOLD ++ GREEN ++ line ++ RESET) := by
  refine ⟨?_, ?_, fun line => rfl⟩
  · intro i line label value hi hsplit
    obtain ⟨p, hp, hpair⟩ := Option.map_eq_some'.1 hsplit
    obtain ⟨hlab, hval⟩ := Prod.mk.injEq .. ▸ hpair
    obtain ⟨hdata, hnotin⟩ := splitOnceChar_some ':' line.data p.1 p.2 (by
      rw [hp])
    refine ⟨?_, ?_, ?_⟩
    · rw [infoColumn, if_neg (by omega), if_neg (by omega), hsplit]
    · apply stringDataExt
      rw [hdata, ← hlab, ← hval]
      simp [String.append]
    · rw [← hlab]; exact hnotin
  · intro i line hi hsplit
    have hnone : splitOnceChar ':' line.data = none := by
      rcases h : splitOnceChar ':' line.data with _ | p
      · rfl
      · rw [splitOnceStr, h] at hsplit; simp at hsplit
    refine ⟨?_, splitOnceChar_none ':' line.data hnone⟩
    rw [infoColumn, if_neg (by omega), if_neg (by omega), splitOnceStr, hnone]
    rfl

/-- Witness for C6 at a concrete line: "OS: a:b" on row 2 splits at the
first colon only. -/
theorem c6_label_colorization_witness :
    infoColumn 2 "OS: a:b" = BOLD ++ YELLOW ++ "OS" ++ ":" ++ RESET ++ " a:b" ∧
    ("OS: a:b" : String) = "OS" ++ ":" ++ " a:b" ∧ ':' ∉ ("OS" : String).data :=
  c6_label_colorization.1 2 "OS: a:b" "OS" " a:b" (by omega) (by decide)

/-- Counterexample to claim C8 as stated: on the Windows target with every
environment variable absent, the terminal probe terminates in
"Windows Terminal", not "unknown". -/
theorem c8_windows_terminal_fallback :
    get_terminal allFailWindows = "Windows Terminal" ∧
    get_terminal allFailWindows ≠ "unknown" := by decide

/-- Claim C8 as amended: on the Linux target, each environment-variable-based
probe (username, terminal, desktop environment, shell) consults its fixed
chain — a set first variable is used (the shell value through the basename
split), an absent one falls through to the next, and when every variable of
the chain is absent the probe returns "unknown"; the Windows terminal probe
instead terminates in "Windows Terminal". -/
theorem c8_env_chains (f : String → Option String) :
    (∀ v, f "USER" = some v → gatherUsername (linuxEnvVars f) = v) ∧
    (f "USER" = none → ∀ v, f "USERNAME" = some v → gatherUsername (linuxEnvVars f) = v) ∧
    (f "USER" = none → f "USERNAME" = none → gatherUsername (linuxEnvVars f) = "unknown") ∧
    (∀ v, f "TERM_PROGRAM" = some v → get_terminal (linuxEnvVars f) = v) ∧
    (f "TERM_PROGRAM" = none → ∀ v, f "TERMINAL_EMULATOR" = some v →
      get_terminal (linuxEnvVars f) = v) ∧
    (f "TERM_PROGRAM" = none → f "TERMINAL_EMULATOR" = none →
      get_terminal (linuxEnvVars f) = "unknown") ∧
    (∀ v, f "XDG_CURRENT_DESKTOP" = some v → get_desktop_environment (linuxEnvVars f) = v) ∧
    (f "XDG_CURRENT_DESKTOP" = none → ∀ v, f "DESKTOP_SESSION" = some v →
      get_desktop_environment (linuxEnvVars f) = v) ∧
    (f "XDG_CURRENT_DESKTOP" = none → f "DESKTOP_SESSION" = none →
      get_desktop_environment (linuxEnvVars f) = "unknown") ∧
    (∀ v, f "SHELL" = some v → get_shell (linuxEnvVars f) = rustBasename v) ∧
    (f "SHELL" = none → ∀ v, f "ComSpec" = some v →
      get_shell (linuxEnvVars f) = rustBasename v) ∧
    (f "SHELL" = none → f "ComSpec" = none → get_shell (linuxEnvVars f) = "unknown") := by
  have hps : ∀ s, powershell_command (linuxEnvVars f) s = none := fun s => rfl
  refine ⟨?_, ?_, ?_, ?_, ?_, ?_, ?_, ?_, ?_, ?_, ?_, ?_⟩
  · intro v hv; simp [gatherUsername, linuxEnvVars, hv]
  · intro h1 v hv; simp [gatherUsername, linuxEnvVars, h1, hv]
  · intro h1 h2; simp [gatherUsername, linuxEnvVars, h1, h2]
  · intro v hv; simp [get_terminal, linuxEnvVars, hv]
  · intro h1 v hv; simp [get_terminal, linuxEnvVars, h1, hv]
  · intro h1 h2; simp [get_terminal, linuxEnvVars, allFailLinux, h1, h2]
  · intro v hv; simp [get_desktop_environment, linuxEnvVars, allFailLinux, hv]
  · intro h1 v hv; simp [get_desktop_environment, linuxEnvVars, allFailLinux, h1, hv]
  · intro h1 h2; simp [get_desktop_environment, linuxEnvVars, allFailLinux, h1, h2]
  · intro v hv; rw [get_shell, hps]; simp [shellFromEnvVars, linuxEnvVars, hv]
  · intro h1 v hv; rw [get_shell, hps]; simp [shellFromEnvVars, linuxEnvVars, h1, hv]
  · intro h1 h2; rw [get_shell, hps]; simp [shellFromEnvVars, linuxEnvVars, h1, h2]

/-- Witness for C8: with only TERMINAL_EMULATOR set (to "kitty"), the
terminal probe falls past the absent TERM_PROGRAM and returns "kitty". -/
theorem c8_env_chains_witness :
    get_terminal (linuxEnvVars onlyTermEmulator) = "kitty" :=
  (c8_env_chains onlyTermEmulator).2.2.2.2.1 (by decide) "kitty" (by decide)

/-- Claim C9: for every `/proc/meminfo` content whose `MemTotal` and
`MemAvailable` both parse, the unguarded `total - available` subtraction of
the Linux memory probe is exact (no underflow) whenever
`available ≤ total` — the probe completes and returns the formatted
string — and the precondition is required: when the reported available
exceeds the total, the subtraction underflows and the probe panics
(modelled as `none`). -/
theorem c9_mem_sub_no_underflow (content : String) (entries : List (String × Nat))
    (total available : Nat)
    (hparse : parseMeminfo content = some entries)
    (hT : memLookup entries "MemTotal" = some total)
    (hA : memLookup entries "MemAvailable" = some available) :
    (available ≤ total →
      get_memory_info (linuxMeminfoEnv content)
        = some (memRender total (total - available)) ∧
      memUsed total available + available = total) ∧
    (total < available → get_memory_info (linuxMeminfoEnv content) = none) := by
  constructor
  · intro h
    constructor
    · simp [get_memory_info, linuxMeminfoEnv, allFailLinux, linuxMemoryCore,
        hparse, hT, hA, checkedSub, h]
    · rw [memUsed]; omega
  · intro h
    have hn : ¬ available ≤ total := by omega
    simp [get_memory_info, linuxMeminfoEnv, allFailLinux, linuxMemoryCore,
      hparse, hT, hA, checkedSub, hn]

/-- Witness for C9 at a concrete `/proc/meminfo` (100 kB total, 50 kB
available): both keys parse, available is at most total, and the probe
returns the formatted string without panicking. -/
theorem c9_mem_sub_no_underflow_witness :
    get_memory_info (linuxMeminfoEnv meminfoSmall)
      = some (memRender 102400 (102400 - 51200)) ∧
    memUsed 102400 51200 + 51200 = 102400 :=
  (c9_mem_sub_no_underflow meminfoSmall [("MemTotal", 102400), ("MemAvailable", 51200)]
    102400 51200 (by decide) (by decide) (by decide)).1 (by decide)

/-- `str::repeat` produces `n` times the character count of the repeated
string. -/
theorem repeatStr_length (s : String) : ∀ n, (repeatStr s n).length = n * s.length := by
  intro n
  induction n with
  | zero => rw [Nat.zero_mul]; rfl
  | succ k ih =>
    show (s.data ++ (repeatStr s k).data).length = (k + 1) * s.length
    rw [List.length_append, Nat.succ_mul]
    show s.length + (repeatStr s k).length = k * s.length + s.length
    rw [ih, Nat.add_comm]

/-- Every character occupies at least one UTF-8 byte, so a string has at
most as many characters as bytes. -/
theorem length_le_utf8Len : ∀ l : List Char, l.length ≤ utf8Len l := by
  intro l
  induction l with
  | nil => simp [utf8Len]
  | cons c cs ih =>
    have hc : 0 < c.utf8Size := Char.utf8Size_pos c
    rw [List.length_cons, utf8Len]
    omega

/-- Counterexample to claim C10 as stated: the literal repeated on the
separator row is not the single box-drawing character U+2500 but the
three-character mojibake `sepUnit`; already for the all-ASCII header
"alice@box" (9 bytes, 9 glyphs) the separator is not "─" repeated 9 times —
it has 27 glyphs and contains no "─" at all. -/
theorem c10_mojibake_not_boxdrawing :
    separatorOf "alice" "box"
      ≠ String.mk (List.replicate (rustLen (userHost "alice" "box")) '─') ∧
    (separatorOf "alice" "box").length = 27 ∧
    ("alice@box" : String).length = 9 ∧
    '─' ∉ (separatorOf "alice" "box").data := by
  refine ⟨by decide, by decide, by decide, by decide⟩

/-- Claim C10 as amended: the separator row repeats the three-character
mojibake literal `sepUnit` — not the single character "─" — exactly the
UTF-8 byte length of the "username@hostname" header, which is the byte
length of the username plus one for the "@" plus the byte length of the
hostname; the separator therefore carries three glyphs per header byte and
its glyph count strictly exceeds the header's character count for every
username and hostname, ASCII included ("alice@box": 27 glyphs over a
9-character header). -/
theorem c10_separator_mojibake :
    (∀ username hostname : String,
      separatorOf username hostname
        = repeatStr sepUnit (rustLen (userHost username hostname)) ∧
      rustLen (userHost username hostname) = rustLen username + 1 + rustLen hostname ∧
      (separatorOf username hostname).length
        = 3 * (rustLen username + 1 + rustLen hostname) ∧
      (userHost username hostname).length < (separatorOf username hostname).length) ∧
    (separatorOf "alice" "box").length = 3 * ("alice@box" : String).length := by
  have hat : utf8Len ['@'] = 1 := by decide
  have hdecomp : ∀ u h : String, rustLen (userHost u h) = rustLen u + 1 + rustLen h := by
    intro u h
    show utf8Len ((u.data ++ ['@']) ++ h.data) = _
    rw [utf8Len_append, utf8Len_append, hat]
    rfl
  have h3 : sepUnit.length = 3 := by decide
  refine ⟨?_, by decide⟩
  intro u h
  have hlen : (separatorOf u h).length = rustLen (userHost u h) * 3 := by
    have hr := repeatStr_length sepUnit (rustLen (userHost u h))
    rw [h3] at hr
    exact hr
  refine ⟨rfl, hdecomp u h, ?_, ?_⟩
  · rw [hlen, hdecomp u h, Nat.mul_comm]
  · have hchars : (userHost u h).length ≤ rustLen (userHost u h) :=
      length_le_utf8Len (userHost u h).data
    have hpos : 1 ≤ rustLen (userHost u h) := by
      rw [hdecomp u h]; omega
    rw [hlen]
    omega
